import Mathlib

/-!
Verification of the port-25 probing and error-classification engine
(`classifyPort25Error`, `testSingleHost`, `checkPort25Connectivity`).

The JavaScript source is embedded shallowly:
* a raw connection failure (a JS `Error` with an optional `code` property and
  a `message` string; `Error.prototype.message` is always a string, defaulting
  to the empty string) becomes `JsError`;
* the JS tri-state `true | false | 'unknown'` for the `blocked` field becomes
  the inductive `Blocked`;
* JS truthiness fallbacks (`x || d`) on strings become `jsStringOr` and
  `jsCodeOr` (both the empty string and an absent value fall back);
* `String.prototype.includes` (case-sensitive substring test) becomes
  `strIncludes`.
-/

/-- A JS `Error` value as consumed by the classifier: an optional platform
error `code` plus a `message` string. -/
structure JsError where
  code : Option String
  message : String
deriving DecidableEq

/-- The JS value set `true | false | 'unknown'` used for the `blocked` field. -/
inductive Blocked where
  | yes
  | no
  | unknown
deriving DecidableEq

/-- Result of `classifyPort25Error`. -/
structure ClassifiedError where
  blocked : Blocked
  reason : String
  severity : String
  errorCode : String
deriving DecidableEq

/-- JS `String.prototype.includes`: case-sensitive substring containment. -/
def strIncludes (s pat : String) : Bool :=
  s.toList.tails.any (fun suffix => pat.toList.isPrefixOf suffix)

/-- JS `s || d` for a string `s`: the empty string is falsy. -/
def jsStringOr (s d : String) : String :=
  if s = "" then d else s

/-- JS `c || d` where `c` is an optional string property: both an absent
value and the empty string are falsy. -/
def jsCodeOr (c : Option String) (d : String) : String :=
  match c with
  | some s => jsStringOr s d
  | none => d

/-- Embedding of `classifyPort25Error` (part_001 lines 89-156): the rule
chain is evaluated in source order, first match wins. -/
def classifyPort25Error (error : JsError) : ClassifiedError :=
  let errorCode := error.code
  let errorMessage := error.message
  if errorCode = some "ECONNREFUSED" then
    { blocked := Blocked.yes
      reason := "Connection refused - Port 25 likely blocked by firewall/ISP"
      severity := "high"
      errorCode := "ECONNREFUSED" }
  else if errorCode = some "ETIMEDOUT" ∨ strIncludes errorMessage "timeout" = true then
    { blocked := Blocked.yes
      reason := "Connection timeout - Port 25 may be blocked or server unavailable"
      severity := "medium"
      errorCode := jsCodeOr errorCode "TIMEOUT" }
  else if errorCode = some "ENETUNREACH" ∨ errorCode = some "EHOSTUNREACH" then
    { blocked := Blocked.yes
      reason := "Network unreachable - Check network configuration"
      severity := "high"
      errorCode := errorCode.getD "" }
  else if errorCode = some "ENOTFOUND" then
    { blocked := Blocked.no
      reason := "DNS resolution failed - Server hostname not found"
      severity := "low"
      errorCode := "ENOTFOUND" }
  else if errorCode = some "EADDRINUSE" then
    { blocked := Blocked.no
      reason := "Address in use - Temporary issue, retry recommended"
      severity := "low"
      errorCode := "EADDRINUSE" }
  else
    { blocked := Blocked.unknown
      reason := jsStringOr errorMessage "Unknown error"
      severity := "medium"
      errorCode := jsCodeOr errorCode "UNKNOWN" }

/-- C5 (amended): for every raw error whose code is `ETIMEDOUT` or whose
message contains the case-sensitive substring `"timeout"`, and whose code is
not `ECONNREFUSED` (the only earlier rule), `classifyPort25Error` returns
`blocked = true`, `severity = "medium"`, the reason text
`"Connection timeout - Port 25 may be blocked or server unavailable"`
(ASCII hyphen and capitalised `Port`, as the code produces), and an
`errorCode` equal to the input's code, falling back to `"TIMEOUT"` when the
code is absent or the empty string. -/
theorem classifyPort25Error_timeout_rule (e : JsError)
    (h1 : e.code ≠ some "ECONNREFUSED")
    (h2 : e.code = some "ETIMEDOUT" ∨ strIncludes e.message "timeout" = true) :
    classifyPort25Error e =
      { blocked := Blocked.yes
        reason := "Connection timeout - Port 25 may be blocked or server unavailable"
        severity := "medium"
        errorCode := jsCodeOr e.code "TIMEOUT" } := by
  unfold classifyPort25Error
  rw [if_neg h1, if_pos h2]

/-- Witness for C5 at a concrete input: a codeless error whose message
contains `"timeout"` is classified by the timeout rule with errorCode
`"TIMEOUT"`. -/
theorem classifyPort25Error_timeout_rule_witness :
    ({ code := none, message := "socket read timeout" } : JsError).code ≠ some "ECONNREFUSED" ∧
    classifyPort25Error { code := none, message := "socket read timeout" } =
      { blocked := Blocked.yes
        reason := "Connection timeout - Port 25 may be blocked or server unavailable"
        severity := "medium"
        errorCode := "TIMEOUT" } := by
  refine ⟨by decide, ?_⟩
  rw [classifyPort25Error_timeout_rule { code := none, message := "socket read timeout" }
    (by decide) (Or.inr (by decide))]
  decide

/-- Counterexample for C5 as literally stated: the produced reason string is
not the claim's em-dash text, and an error carrying the empty string as its
code (present, not absent) still yields errorCode `"TIMEOUT"`, not the
input's code. -/
theorem classifyPort25Error_timeout_rule_cex :
    (classifyPort25Error { code := some "ETIMEDOUT", message := "x" }).reason ≠
      "Connection timeout — port 25 may be blocked or server unavailable" ∧
    (classifyPort25Error { code := some "", message := "a timeout happened" }).errorCode
      = "TIMEOUT" ∧
    (classifyPort25Error { code := some "", message := "a timeout happened" }).errorCode
      ≠ "" := by
  decide

/-- C6: `classifyPort25Error` is a total pure function; on every input that
matches none of the five specific rules it returns `blocked = "unknown"`,
`severity = "medium"`, the raw message as the reason (falling back to
`"Unknown error"` for the empty message), and `errorCode = code or "UNKNOWN"`
under JS truthiness. -/
theorem classifyPort25Error_default_rule (e : JsError)
    (h1 : e.code ≠ some "ECONNREFUSED")
    (h2 : e.code ≠ some "ETIMEDOUT")
    (h3 : strIncludes e.message "timeout" = false)
    (h4 : e.code ≠ some "ENETUNREACH")
    (h5 : e.code ≠ some "EHOSTUNREACH")
    (h6 : e.code ≠ some "ENOTFOUND")
    (h7 : e.code ≠ some "EADDRINUSE") :
    classifyPort25Error e =
      { blocked := Blocked.unknown
        reason := jsStringOr e.message "Unknown error"
        severity := "medium"
        errorCode := jsCodeOr e.code "UNKNOWN" } := by
  have hA : ¬(e.code = some "ETIMEDOUT" ∨ strIncludes e.message "timeout" = true) := by
    rintro (hc | hc)
    · exact h2 hc
    · simp [h3] at hc
  have hB : ¬(e.code = some "ENETUNREACH" ∨ e.code = some "EHOSTUNREACH") := by
    rintro (hc | hc)
    · exact h4 hc
    · exact h5 hc
  unfold classifyPort25Error
  rw [if_neg h1, if_neg hA, if_neg hB, if_neg h6, if_neg h7]

/-- Witness for C6: a completely empty error (no code, empty message) lands
in the default rule with reason `"Unknown error"` and errorCode `"UNKNOWN"`. -/
theorem classifyPort25Error_default_rule_witness :
    classifyPort25Error { code := none, message := "" } =
      { blocked := Blocked.unknown
        reason := "Unknown error"
        severity := "medium"
        errorCode := "UNKNOWN" } := by
  rw [classifyPort25Error_default_rule { code := none, message := "" }
    (by decide) (by decide) (by decide) (by decide) (by decide) (by decide) (by decide)]
  decide


/-- A probe target from the fixed list in `checkPort25Connectivity`. -/
structure Target where
  host : String
  priority : Nat
  provider : String
deriving DecidableEq

/-- The fixed five-target list (part_001 lines 173-179), in ascending
priority order. -/
def testTargets : List Target :=
  [ { host := "mxshield.brandnav.io", priority := 1, provider := "BrandNav" },
    { host := "gmail-smtp-in.l.google.com", priority := 2, provider := "Google" },
    { host := "mx-biz.mail.am0.yahoodns.net", priority := 3, provider := "Yahoo" },
    { host := "mail.protection.outlook.com", priority := 4, provider := "Microsoft" },
    { host := "mx1.zoho.com", priority := 5, provider := "Zoho" } ]

/-- The value `testSingleHost` resolves with on success. -/
structure SingleHostResult where
  success : Bool
  responseTime : Nat
  banner : String
deriving DecidableEq

/-- One element of the failure report's `errors` array (part_001 lines
214-221). -/
structure ErrorEntry where
  host : String
  provider : String
  error : String
  reason : String
  severity : String
  blocked : Blocked
deriving DecidableEq

/-- The report returned by `checkPort25Connectivity`.  The ambient clock
values (`totalTime`, `timestamp`) are passed in as parameters of the model. -/
structure ConnectivityReport where
  success : Bool
  port25Open : Bool
  canVerifyEmails : Bool
  testedHost : Option String
  provider : Option String
  attemptedHosts : List String
  responseTime : Option Nat
  totalTime : Nat
  smtpBanner : Option String
  error : Option String
  errors : List ErrorEntry
  recommendation : Option String
  timestamp : String
deriving DecidableEq

/-- The error entry pushed for a failed target (part_001 lines 210-221):
the raw error is classified and recorded with the target's host/provider. -/
def mkErrorEntry (target : Target) (err : JsError) : ErrorEntry :=
  let classified := classifyPort25Error err
  { host := target.host
    provider := target.provider
    error := classified.errorCode
    reason := classified.reason
    severity := classified.severity
    blocked := classified.blocked }

/-- The sequential for-loop of `checkPort25Connectivity` (part_001 lines
187-226).  The per-host probe outcome is supplied by the oracle `probe`
(the awaited result of `testSingleHost(target.host, 5000)`): `Except.ok`
models a resolution, `Except.error` a rejection.  Returns the accumulated
`attemptedHosts`, the accumulated `errors`, and the first successful target
with its result (or `none` when every target failed). -/
def checkPort25Loop (probe : Target → Except JsError SingleHostResult) :
    List Target → List String → List ErrorEntry →
    List String × List ErrorEntry × Option (Target × SingleHostResult)
  | [], attemptedHosts, errors => (attemptedHosts, errors, none)
  | target :: rest, attemptedHosts, errors =>
    let attemptedHosts := attemptedHosts ++ [target.host]
    match probe target with
    | Except.ok result => (attemptedHosts, errors, some (target, result))
    | Except.error err =>
      checkPort25Loop probe rest attemptedHosts (errors ++ [mkErrorEntry target err])

/-- Embedding of `checkPort25Connectivity` (part_001 lines 172-252).  On the
first successful probe it returns the success report (note the hard-coded
`errors := []`); when all five targets fail it returns the failure report
whose recommendation is chosen from `allBlocked` / `someUnknown`. -/
def checkPort25Connectivity (probe : Target → Except JsError SingleHostResult)
    (totalTime : Nat) (timestamp : String) : ConnectivityReport :=
  match checkPort25Loop probe testTargets [] [] with
  | (attemptedHosts, _, some (target, result)) =>
    { success := true
      port25Open := true
      canVerifyEmails := true
      testedHost := some target.host
      provider := some target.provider
      attemptedHosts := attemptedHosts
      responseTime := some result.responseTime
      totalTime := totalTime
      smtpBanner := some result.banner
      error := none
      errors := []
      recommendation := none
      timestamp := timestamp }
  | (attemptedHosts, errors, none) =>
    let allBlocked := errors.all (fun e => decide (e.blocked = Blocked.yes))
    let someUnknown := errors.any (fun e => decide (e.blocked = Blocked.unknown))
    { success := true
      port25Open := false
      canVerifyEmails := false
      testedHost := none
      provider := none
      attemptedHosts := attemptedHosts
      responseTime := none
      totalTime := totalTime
      smtpBanner := none
      error := some "All connection attempts failed"
      errors := errors
      recommendation := some (if allBlocked then
          "Port 25 is blocked by your network/ISP. Consider using a VPS or cloud server with port 25 access for email verification."
        else if someUnknown then
          "Unable to determine port 25 status. Some hosts returned unexpected errors. Check your network configuration."
        else
          "DNS or network issues detected. Verify your internet connection and DNS settings.")
      timestamp := timestamp }

/-- The error entry a target contributes when its probe fails (`none` for a
successful probe). -/
def failEntry (probe : Target → Except JsError SingleHostResult) (t : Target) :
    Option ErrorEntry :=
  match probe t with
  | Except.error e => some (mkErrorEntry t e)
  | Except.ok _ => none

/-- Case analysis of the sequential loop: either some target is the first
success (everything before it failed), or every target failed; in each case
the loop's three outputs are determined. -/
theorem checkPort25Loop_cases (probe : Target → Except JsError SingleHostResult)
    (ts : List Target) :
    ∀ (acc : List String) (errs : List ErrorEntry),
      (∃ pre t post r, ts = pre ++ t :: post ∧
        (∀ u ∈ pre, ∃ e, probe u = Except.error e) ∧
        probe t = Except.ok r ∧
        checkPort25Loop probe ts acc errs =
          (acc ++ pre.map Target.host ++ [t.host],
           errs ++ pre.filterMap (failEntry probe),
           some (t, r)))
      ∨ ((∀ t ∈ ts, ∃ e, probe t = Except.error e) ∧
        checkPort25Loop probe ts acc errs =
          (acc ++ ts.map Target.host, errs ++ ts.filterMap (failEntry probe), none)) := by
  induction ts with
  | nil =>
    intro acc errs
    right
    refine ⟨by simp, ?_⟩
    simp [checkPort25Loop]
  | cons t rest ih =>
    intro acc errs
    cases h : probe t with
    | ok r =>
      left
      refine ⟨[], t, rest, r, rfl, by simp, h, ?_⟩
      simp [checkPort25Loop, h]
    | error e =>
      rcases ih (acc ++ [t.host]) (errs ++ [mkErrorEntry t e]) with
        ⟨pre, t', post, r, hts, hpre, hok, heq⟩ | ⟨hall, heq⟩
      · left
        refine ⟨t :: pre, t', post, r, by simp [hts], ?_, hok, ?_⟩
        · intro u hu
          rcases List.mem_cons.mp hu with rfl | hu
          · exact ⟨e, h⟩
          · exact hpre u hu
        · simp only [checkPort25Loop, h]
          rw [heq]
          simp [failEntry, h]
      · right
        refine ⟨?_, ?_⟩
        · intro u hu
          rcases List.mem_cons.mp hu with rfl | hu
          · exact ⟨e, h⟩
          · exact hall u hu
        · simp only [checkPort25Loop, h]
          rw [heq]
          simp [failEntry, h]

/-- C2: `checkPort25Connectivity` never fails: for every combination of
per-host probe outcomes it returns a populated report, and the
report-envelope flag `success` is `true` in every returned report,
including the all-hosts-failed report. -/
theorem checkPort25Connectivity_always_succeeds
    (probe : Target → Except JsError SingleHostResult)
    (totalTime : Nat) (timestamp : String) :
    (checkPort25Connectivity probe totalTime timestamp).success = true := by
  unfold checkPort25Connectivity
  rcases h : checkPort25Loop probe testTargets [] [] with ⟨att, errs, found⟩
  cases found with
  | none => simp
  | some p => rcases p with ⟨t, r⟩; simp

/-- A name-not-found failure whose message does not contain `"timeout"` is
classified as not blocked (DNS issue). -/
theorem classify_enotfound (e : JsError) (hcode : e.code = some "ENOTFOUND")
    (hm : strIncludes e.message "timeout" = false) :
    classifyPort25Error e =
      { blocked := Blocked.no
        reason := "DNS resolution failed - Server hostname not found"
        severity := "low"
        errorCode := "ENOTFOUND" } := by
  have hA : e.code ≠ some "ECONNREFUSED" := by
    rw [hcode]; decide
  have hB : ¬(e.code = some "ETIMEDOUT" ∨ strIncludes e.message "timeout" = true) := by
    rintro (hc | hc)
    · rw [hcode] at hc
      exact absurd hc (by decide)
    · simp [hm] at hc
  have hC : ¬(e.code = some "ENETUNREACH" ∨ e.code = some "EHOSTUNREACH") := by
    rintro (hc | hc) <;> rw [hcode] at hc <;> exact absurd hc (by decide)
  unfold classifyPort25Error
  rw [if_neg hA, if_neg hB, if_neg hC, if_pos hcode]

/-- C1 (amended): for every run of the multi-host check, `attemptedHosts` is
a prefix of the fixed five-target host list in ascending priority order,
ending either at the first host whose probe succeeded or after all five
targets; the `errors` field contains exactly one entry per attempted host
that failed, in attempt order, in the all-failed report, while the success
report's `errors` field is empty (prior failures are discarded); and
`testedHost`/`provider` are non-null iff `success && port25Open`. -/
theorem checkPort25Connectivity_report_invariants
    (probe : Target → Except JsError SingleHostResult)
    (totalTime : Nat) (timestamp : String) :
    ((checkPort25Connectivity probe totalTime timestamp).attemptedHosts <+:
        testTargets.map Target.host) ∧
    ((∃ pre t post r, testTargets = pre ++ t :: post ∧
        (∀ u ∈ pre, ∃ e, probe u = Except.error e) ∧
        probe t = Except.ok r ∧
        (checkPort25Connectivity probe totalTime timestamp).attemptedHosts
          = pre.map Target.host ++ [t.host] ∧
        (checkPort25Connectivity probe totalTime timestamp).errors = [] ∧
        (checkPort25Connectivity probe totalTime timestamp).port25Open = true)
     ∨ ((∀ t ∈ testTargets, ∃ e, probe t = Except.error e) ∧
        (checkPort25Connectivity probe totalTime timestamp).attemptedHosts
          = testTargets.map Target.host ∧
        (checkPort25Connectivity probe totalTime timestamp).errors
          = testTargets.filterMap (failEntry probe) ∧
        (checkPort25Connectivity probe totalTime timestamp).port25Open = false)) ∧
    ((checkPort25Connectivity probe totalTime timestamp).testedHost.isSome
      = ((checkPort25Connectivity probe totalTime timestamp).success
          && (checkPort25Connectivity probe totalTime timestamp).port25Open)) ∧
    ((checkPort25Connectivity probe totalTime timestamp).provider.isSome
      = ((checkPort25Connectivity probe totalTime timestamp).success
          && (checkPort25Connectivity probe totalTime timestamp).port25Open)) := by
  rcases checkPort25Loop_cases probe testTargets [] [] with
    ⟨pre, t, post, r, hts, hpre, hok, heq⟩ | ⟨hall, heq⟩
  · have hA : (checkPort25Connectivity probe totalTime timestamp).attemptedHosts
        = pre.map Target.host ++ [t.host] := by
      simp [checkPort25Connectivity, heq]
    refine ⟨?_, Or.inl ⟨pre, t, post, r, hts, hpre, hok, hA, ?_, ?_⟩, ?_, ?_⟩
    · rw [hA, hts]
      exact ⟨post.map Target.host, by simp⟩
    · simp [checkPort25Connectivity, heq]
    · simp [checkPort25Connectivity, heq]
    · simp [checkPort25Connectivity, heq]
    · simp [checkPort25Connectivity, heq]
  · have hA : (checkPort25Connectivity probe totalTime timestamp).attemptedHosts
        = testTargets.map Target.host := by
      simp [checkPort25Connectivity, heq]
    refine ⟨?_, Or.inr ⟨hall, hA, ?_, ?_⟩, ?_, ?_⟩
    · rw [hA]
    · simp [checkPort25Connectivity, heq]
    · simp [checkPort25Connectivity, heq]
    · simp [checkPort25Connectivity, heq]
    · simp [checkPort25Connectivity, heq]

/-- Counterexample for C1 as literally stated: when target 1 fails with
`ECONNREFUSED` and target 2 succeeds, the first host was attempted and
failed, yet the returned (success) report's `errors` field is empty, not
"exactly one entry per attempted host that failed". -/
theorem checkPort25Connectivity_invariants_cex :
    (checkPort25Connectivity
        (fun t => if t.priority = 1 then
            Except.error { code := some "ECONNREFUSED", message := "Connection refused" }
          else
            Except.ok { success := true, responseTime := 12, banner := "220 ready" })
        0 "ts").attemptedHosts
      = ["mxshield.brandnav.io", "gmail-smtp-in.l.google.com"] ∧
    (checkPort25Connectivity
        (fun t => if t.priority = 1 then
            Except.error { code := some "ECONNREFUSED", message := "Connection refused" }
          else
            Except.ok { success := true, responseTime := 12, banner := "220 ready" })
        0 "ts").errors = [] ∧
    (checkPort25Connectivity
        (fun t => if t.priority = 1 then
            Except.error { code := some "ECONNREFUSED", message := "Connection refused" }
          else
            Except.ok { success := true, responseTime := 12, banner := "220 ready" })
        0 "ts").errors.length ≠ 1 := by
  decide

/-- C9 (amended): for every run in which the probe of target 1 fails and the
probe of target 2 succeeds, the report has `attemptedHosts` of length 2 (the
first two hosts in order), `testedHost` equal to target 2's host, and an
empty `errors` field (the success report carries no error entries). -/
theorem checkPort25Connectivity_fallback_success
    (probe : Target → Except JsError SingleHostResult)
    (totalTime : Nat) (timestamp : String) (e : JsError) (r : SingleHostResult)
    (h1 : probe { host := "mxshield.brandnav.io", priority := 1, provider := "BrandNav" }
      = Except.error e)
    (h2 : probe { host := "gmail-smtp-in.l.google.com", priority := 2, provider := "Google" }
      = Except.ok r) :
    (checkPort25Connectivity probe totalTime timestamp).attemptedHosts
      = ["mxshield.brandnav.io", "gmail-smtp-in.l.google.com"] ∧
    (checkPort25Connectivity probe totalTime timestamp).testedHost
      = some "gmail-smtp-in.l.google.com" ∧
    (checkPort25Connectivity probe totalTime timestamp).errors = [] := by
  refine ⟨?_, ?_, ?_⟩ <;>
    simp [checkPort25Connectivity, checkPort25Loop, testTargets, h1, h2]

/-- Witness for C9's amended theorem at a concrete oracle: target 1 refused,
target 2 succeeds. -/
theorem checkPort25Connectivity_fallback_success_witness :
    (checkPort25Connectivity
        (fun t => if t.priority = 1 then
            Except.error { code := some "ECONNREFUSED", message := "Connection refused" }
          else
            Except.ok { success := true, responseTime := 9, banner := "220 smtp ready" })
        0 "ts").attemptedHosts
      = ["mxshield.brandnav.io", "gmail-smtp-in.l.google.com"] ∧
    (checkPort25Connectivity
        (fun t => if t.priority = 1 then
            Except.error { code := some "ECONNREFUSED", message := "Connection refused" }
          else
            Except.ok { success := true, responseTime := 9, banner := "220 smtp ready" })
        0 "ts").testedHost
      = some "gmail-smtp-in.l.google.com" ∧
    (checkPort25Connectivity
        (fun t => if t.priority = 1 then
            Except.error { code := some "ECONNREFUSED", message := "Connection refused" }
          else
            Except.ok { success := true, responseTime := 9, banner := "220 smtp ready" })
        0 "ts").errors = [] := by
  exact checkPort25Connectivity_fallback_success
    (fun t => if t.priority = 1 then
        Except.error { code := some "ECONNREFUSED", message := "Connection refused" }
      else
        Except.ok { success := true, responseTime := 9, banner := "220 smtp ready" })
    0 "ts"
    { code := some "ECONNREFUSED", message := "Connection refused" }
    { success := true, responseTime := 9, banner := "220 smtp ready" }
    (by rfl) (by rfl)

/-- Counterexample for C9 as literally stated: in the fail-then-succeed run
the `errors` field has 0 entries, not "exactly 1 entry, for target 1". -/
theorem checkPort25Connectivity_fallback_errors_cex :
    (checkPort25Connectivity
        (fun t => if t.priority = 1 then
            Except.error { code := some "ECONNREFUSED", message := "Connection refused" }
          else
            Except.ok { success := true, responseTime := 7, banner := "220 hello" })
        0 "ts").attemptedHosts.length = 2 ∧
    (checkPort25Connectivity
        (fun t => if t.priority = 1 then
            Except.error { code := some "ECONNREFUSED", message := "Connection refused" }
          else
            Except.ok { success := true, responseTime := 7, banner := "220 hello" })
        0 "ts").testedHost = some "gmail-smtp-in.l.google.com" ∧
    (checkPort25Connectivity
        (fun t => if t.priority = 1 then
            Except.error { code := some "ECONNREFUSED", message := "Connection refused" }
          else
            Except.ok { success := true, responseTime := 7, banner := "220 hello" })
        0 "ts").errors.length ≠ 1 := by
  decide

/-- C4 (amended): when all five probes fail, the recommendation is chosen
from the aggregated classified errors with the stated precedence (all
blocked, then any unknown, then the DNS/network text); and in particular
all five failing with name-not-found yields the "DNS or network issues"
recommendation provided the failure messages do not contain `"timeout"`
(otherwise the earlier message-substring timeout rule classifies them as
blocked). -/
theorem checkPort25Connectivity_recommendation_precedence
    (probe : Target → Except JsError SingleHostResult)
    (totalTime : Nat) (timestamp : String)
    (h : ∀ t ∈ testTargets, ∃ e, probe t = Except.error e) :
    ((checkPort25Connectivity probe totalTime timestamp).recommendation
      = some (if (checkPort25Connectivity probe totalTime timestamp).errors.all
            (fun en => decide (en.blocked = Blocked.yes)) then
          "Port 25 is blocked by your network/ISP. Consider using a VPS or cloud server with port 25 access for email verification."
        else if (checkPort25Connectivity probe totalTime timestamp).errors.any
            (fun en => decide (en.blocked = Blocked.unknown)) then
          "Unable to determine port 25 status. Some hosts returned unexpected errors. Check your network configuration."
        else
          "DNS or network issues detected. Verify your internet connection and DNS settings.")) ∧
    ((∀ t ∈ testTargets, ∃ m, probe t = Except.error { code := some "ENOTFOUND", message := m } ∧
        strIncludes m "timeout" = false) →
      (checkPort25Connectivity probe totalTime timestamp).recommendation
        = some "DNS or network issues detected. Verify your internet connection and DNS settings." ∧
      strIncludes "DNS or network issues detected. Verify your internet connection and DNS settings."
        "DNS or network issues" = true) := by
  rcases checkPort25Loop_cases probe testTargets [] [] with
    ⟨pre, t, post, r, hts, hpre, hok, heq⟩ | ⟨hall, heq⟩
  · obtain ⟨e, he⟩ := h t (by
      rw [hts]
      exact List.mem_append.mpr (Or.inr (List.mem_cons_self t post)))
    rw [hok] at he
    exact Except.noConfusion he
  · constructor
    · simp [checkPort25Connectivity, heq]
    · intro h2
      have hmem : ∀ en ∈ testTargets.filterMap (failEntry probe), en.blocked = Blocked.no := by
        intro en hen
        rcases List.mem_filterMap.mp hen with ⟨a, ha, hfa⟩
        rcases h2 a ha with ⟨m, hpa, hm⟩
        simp only [failEntry, hpa, Option.some.injEq] at hfa
        rw [← hfa]
        show (classifyPort25Error { code := some "ENOTFOUND", message := m }).blocked = Blocked.no
        have hcls := classify_enotfound { code := some "ENOTFOUND", message := m } rfl hm
        rw [hcls]
      have ht1 : ({ host := "mxshield.brandnav.io", priority := 1, provider := "BrandNav" } : Target) ∈ testTargets := by
        simp [testTargets]
      rcases h2 _ ht1 with ⟨m1, hp1, hm1⟩
      have hen1 : mkErrorEntry
          { host := "mxshield.brandnav.io", priority := 1, provider := "BrandNav" }
          { code := some "ENOTFOUND", message := m1 }
            ∈ testTargets.filterMap (failEntry probe) :=
        List.mem_filterMap.mpr ⟨_, ht1, by simp only [failEntry, hp1]⟩
      have hbadAll : ¬((testTargets.filterMap (failEntry probe)).all
          (fun en => decide (en.blocked = Blocked.yes)) = true) := by
        intro hAll
        have hx := List.all_eq_true.mp hAll _ hen1
        rw [hmem _ hen1] at hx
        exact absurd hx (by decide)
      have hnoUnk : ¬((testTargets.filterMap (failEntry probe)).any
          (fun en => decide (en.blocked = Blocked.unknown)) = true) := by
        intro hAny
        rcases List.any_eq_true.mp hAny with ⟨en, hen, hp⟩
        rw [hmem en hen] at hp
        exact absurd hp (by decide)
      refine ⟨?_, by decide⟩
      simp only [checkPort25Connectivity, heq, List.nil_append]
      rw [if_neg hbadAll, if_neg hnoUnk]

/-- Witness for C4 at a concrete oracle: all five probes refused, so every
entry is blocked and the recommendation is the "Port 25 is blocked" text. -/
theorem checkPort25Connectivity_recommendation_precedence_witness :
    (checkPort25Connectivity
        (fun _ => Except.error { code := some "ECONNREFUSED", message := "Connection refused" })
        0 "ts").recommendation
      = some "Port 25 is blocked by your network/ISP. Consider using a VPS or cloud server with port 25 access for email verification." := by
  have h := (checkPort25Connectivity_recommendation_precedence
    (fun _ => Except.error { code := some "ECONNREFUSED", message := "Connection refused" })
    0 "ts"
    (fun t _ => ⟨{ code := some "ECONNREFUSED", message := "Connection refused" }, rfl⟩)).1
  rw [h]
  decide

/-- Counterexample for C4's in-particular remark as literally stated: all
five targets failing with name-not-found whose message happens to contain
`"timeout"` are classified by the earlier timeout rule as blocked, so the
recommendation is the "Port 25 is blocked" text, which does not contain
"DNS or network issues". -/
theorem checkPort25Connectivity_dns_remark_cex :
    (checkPort25Connectivity
        (fun _ => Except.error { code := some "ENOTFOUND", message := "timeout" })
        0 "ts").recommendation
      = some "Port 25 is blocked by your network/ISP. Consider using a VPS or cloud server with port 25 access for email verification." ∧
    strIncludes "Port 25 is blocked by your network/ISP. Consider using a VPS or cloud server with port 25 access for email verification."
      "DNS or network issues" = false := by
  decide

/-- A socket event delivered to the handlers registered by `testSingleHost`.
The `data` event carries the decoded chunk and the elapsed time
(`Date.now() - startTime`) observed when the handler runs. -/
inductive SocketEvent where
  | connect
  | data (chunk : String) (elapsed : Nat)
  | timeout
  | error (err : JsError)
  | close
deriving DecidableEq

/-- JS `String.prototype.trim` modeled over the character list: strip
leading and trailing whitespace. -/
def jsTrim (s : String) : String :=
  String.mk (((s.toList.dropWhile Char.isWhitespace).reverse.dropWhile
    Char.isWhitespace).reverse)

/-- JS `String.prototype.startsWith`. -/
def jsStartsWith (s pat : String) : Bool :=
  pat.toList.isPrefixOf s.toList

/-- How the promise returned by `testSingleHost` settled, tagged by the
handler that settled it and carrying the resolved value or rejection error. -/
inductive Settled where
  | resolved (r : SingleHostResult)
  | invalidBanner (err : JsError)
  | connTimeout (err : JsError)
  | socketError (err : JsError)
  | closedNoBanner (err : JsError)
deriving DecidableEq

/-- The mutable state of one `testSingleHost` invocation: the two source
variables `smtpBanner` and `connected`, the promise cell (JS promises settle
at most once), and an instrumentation counter of `socket.destroy()` calls. -/
structure ProbeState where
  smtpBanner : String
  connected : Bool
  settled : Option Settled
  destroyCount : Nat
deriving DecidableEq

/-- JS promise semantics: `resolve`/`reject` are no-ops once settled. -/
def settleOnce (st : ProbeState) (o : Settled) : ProbeState :=
  match st.settled with
  | some _ => st
  | none => { st with settled := some o }

/-- One `socket.destroy()` call. -/
def destroySocket (st : ProbeState) : ProbeState :=
  { st with destroyCount := st.destroyCount + 1 }

/-- Embedding of the event handlers registered by `testSingleHost`
(part_001 lines 24-70), one step per delivered socket event:
`connect` sets `connected`; `data` trims the chunk into `smtpBanner`,
destroys the socket and resolves iff the banner starts with `"220"`,
otherwise destroys and rejects with the invalid-banner error; `timeout` and
`error` destroy and reject; `close` rejects with the closed-without-banner
error only when `connected` is set and `smtpBanner` is empty (JS
`connected && !smtpBanner`), and never calls destroy. -/
def handleEvent (st : ProbeState) (ev : SocketEvent) : ProbeState :=
  match ev with
  | SocketEvent.connect => { st with connected := true }
  | SocketEvent.data chunk elapsed =>
    let smtpBanner := jsTrim chunk
    let st1 := { st with smtpBanner := smtpBanner }
    if jsStartsWith smtpBanner "220" then
      settleOnce (destroySocket st1)
        (Settled.resolved { success := true, responseTime := elapsed, banner := smtpBanner })
    else
      settleOnce (destroySocket st1)
        (Settled.invalidBanner
          { code := none, message := "Invalid SMTP banner received: " ++ smtpBanner })
  | SocketEvent.timeout =>
    settleOnce (destroySocket st) (Settled.connTimeout { code := none, message := "Connection timeout" })
  | SocketEvent.error err =>
    settleOnce (destroySocket st) (Settled.socketError err)
  | SocketEvent.close =>
    if st.connected && st.smtpBanner = "" then
      settleOnce st (Settled.closedNoBanner
        { code := none, message := "Connection closed without receiving SMTP banner" })
    else
      st

/-- Initial state of one `testSingleHost` invocation (part_001 lines 15-16). -/
def initProbeState : ProbeState :=
  { smtpBanner := "", connected := false, settled := none, destroyCount := 0 }

/-- Embedding of `testSingleHost` (part_001 lines 10-79) as the state
reached after a sequence of delivered socket events. -/
def testSingleHost (events : List SocketEvent) : ProbeState :=
  events.foldl handleEvent initProbeState

/-- Whether an event is `close`. -/
def isCloseEvent : SocketEvent → Bool
  | SocketEvent.close => true
  | _ => false

/-- Whether an event is a `data` event. -/
def isDataEvent : SocketEvent → Bool
  | SocketEvent.data _ _ => true
  | _ => false

/-- Admissibility of delivering one event in a given state, modelling the
Node.js `net.Socket` event contract: `connect` fires at most once and only
on a live socket; `data`, `timeout` and `error` fire only before
`socket.destroy()` has been called and before `close`; `close` fires at most
once and is the final event. -/
def allowedEvent (st : ProbeState) (closedSeen : Bool) : SocketEvent → Bool
  | SocketEvent.connect => !st.connected && decide (st.destroyCount = 0) && !closedSeen
  | SocketEvent.data _ _ => st.connected && decide (st.destroyCount = 0) && !closedSeen
  | SocketEvent.timeout => decide (st.destroyCount = 0) && !closedSeen
  | SocketEvent.error _ => decide (st.destroyCount = 0) && !closedSeen
  | SocketEvent.close => !closedSeen

/-- A trace is admissible from a state when every event is allowed in the
state reached by the events before it. -/
def validFrom (st : ProbeState) (closedSeen : Bool) : List SocketEvent → Bool
  | [] => true
  | ev :: rest =>
    allowedEvent st closedSeen ev &&
      validFrom (handleEvent st ev) (closedSeen || isCloseEvent ev) rest

/-- An admissible socket-event trace for one `testSingleHost` invocation. -/
abbrev ValidTrace (events : List SocketEvent) : Prop :=
  validFrom initProbeState false events = true

/-- Whether the promise was settled by a handler that calls
`socket.destroy()` (data, timeout, error) rather than by the close handler. -/
def settledViaDestroy : Option Settled → Bool
  | none => false
  | some (Settled.closedNoBanner _) => false
  | some _ => true

/-- Reachability invariant of one probe run: the socket has been destroyed
exactly once iff the promise was settled by a destroying handler, and a
closed-without-banner settlement implies a `close` event has been seen. -/
def probeInvariant (st : ProbeState) (closedSeen : Bool) : Prop :=
  st.destroyCount = (if settledViaDestroy st.settled = true then 1 else 0) ∧
  (∀ e, st.settled = some (Settled.closedNoBanner e) → closedSeen = true)

theorem settled_none_of_inv (st : ProbeState) (cs : Bool) (hI : probeInvariant st cs)
    (hdc : st.destroyCount = 0) (hcs : cs = false) : st.settled = none := by
  obtain ⟨hc, hcb⟩ := hI
  have hsvd : settledViaDestroy st.settled = false := by
    cases hs : settledViaDestroy st.settled with
    | false => rfl
    | true =>
      rw [hs, hdc] at hc
      simp at hc
  cases hset : st.settled with
  | none => rfl
  | some o =>
    rw [hset] at hsvd
    cases o with
    | closedNoBanner e =>
      have h1 := hcb e hset
      rw [hcs] at h1
      exact absurd h1 Bool.false_ne_true
    | resolved r => simp [settledViaDestroy] at hsvd
    | invalidBanner e => simp [settledViaDestroy] at hsvd
    | connTimeout e => simp [settledViaDestroy] at hsvd
    | socketError e => simp [settledViaDestroy] at hsvd

theorem probeInvariant_step (st : ProbeState) (closedSeen : Bool) (ev : SocketEvent)
    (hA : allowedEvent st closedSeen ev = true)
    (hI : probeInvariant st closedSeen) :
    probeInvariant (handleEvent st ev) (closedSeen || isCloseEvent ev) := by
  obtain ⟨hc, hcb⟩ := hI
  cases ev with
  | connect =>
    refine ⟨hc, ?_⟩
    intro e he
    simp only [isCloseEvent, Bool.or_false]
    exact hcb e he
  | data chunk elapsed =>
    simp only [allowedEvent, Bool.and_eq_true, Bool.not_eq_true', decide_eq_true_eq] at hA
    obtain ⟨⟨hconn, hdc⟩, hcs⟩ := hA
    have hsn : st.settled = none := settled_none_of_inv st closedSeen ⟨hc, hcb⟩ hdc hcs
    simp only [handleEvent, isCloseEvent, Bool.or_false]
    split <;>
      simp [probeInvariant, settleOnce, destroySocket, hsn, hdc, settledViaDestroy]
  | timeout =>
    simp only [allowedEvent, Bool.and_eq_true, Bool.not_eq_true', decide_eq_true_eq] at hA
    obtain ⟨hdc, hcs⟩ := hA
    have hsn : st.settled = none := settled_none_of_inv st closedSeen ⟨hc, hcb⟩ hdc hcs
    simp [handleEvent, isCloseEvent, probeInvariant, settleOnce, destroySocket, hsn, hdc,
      settledViaDestroy]
  | error err =>
    simp only [allowedEvent, Bool.and_eq_true, Bool.not_eq_true', decide_eq_true_eq] at hA
    obtain ⟨hdc, hcs⟩ := hA
    have hsn : st.settled = none := settled_none_of_inv st closedSeen ⟨hc, hcb⟩ hdc hcs
    simp [handleEvent, isCloseEvent, probeInvariant, settleOnce, destroySocket, hsn, hdc,
      settledViaDestroy]
  | close =>
    simp only [handleEvent, isCloseEvent, Bool.or_true]
    split
    · unfold settleOnce
      cases hset : st.settled with
      | some o =>
        refine ⟨hc, fun e _ => rfl⟩
      | none =>
        refine ⟨?_, fun e _ => rfl⟩
        rw [hset] at hc
        simpa [settledViaDestroy] using hc
    · exact ⟨hc, fun e _ => rfl⟩

theorem probeInvariant_run (evs : List SocketEvent) :
    ∀ (st : ProbeState) (cs : Bool),
      validFrom st cs evs = true → probeInvariant st cs →
      probeInvariant (evs.foldl handleEvent st) (cs || evs.any isCloseEvent) := by
  induction evs with
  | nil =>
    intro st cs _ hI
    simpa using hI
  | cons ev rest ih =>
    intro st cs hV hI
    simp only [validFrom, Bool.and_eq_true] at hV
    obtain ⟨hA, hV2⟩ := hV
    have hstep := probeInvariant_step st cs ev hA hI
    have := ih (handleEvent st ev) (cs || isCloseEvent ev) hV2 hstep
    simpa [List.foldl_cons, List.any_cons, Bool.or_assoc] using this

/-- C7 (amended): over every admissible socket-event trace,
`socket.destroy()` is called exactly once when the promise settles via the
data, timeout, or error handler (success, invalid banner, timeout, socket
error), and zero times otherwise — in particular zero times on the
connection-closed-without-banner path, and never twice on any trace. -/
theorem testSingleHost_destroy_discipline (events : List SocketEvent)
    (h : ValidTrace events) :
    (testSingleHost events).destroyCount
      = (if settledViaDestroy (testSingleHost events).settled = true then 1 else 0) := by
  have hinit : probeInvariant initProbeState false := by
    constructor
    · simp [initProbeState, settledViaDestroy]
    · intro e he
      simp [initProbeState] at he
  exact (probeInvariant_run events initProbeState false h hinit).1

/-- Witness for C7's amended theorem: a successful probe trace destroys the
socket exactly once. -/
theorem testSingleHost_destroy_discipline_witness :
    ValidTrace [SocketEvent.connect, SocketEvent.data "220 example ESMTP" 7] ∧
    (testSingleHost [SocketEvent.connect, SocketEvent.data "220 example ESMTP" 7]).destroyCount
      = 1 := by
  refine ⟨by decide, ?_⟩
  rw [testSingleHost_destroy_discipline
    [SocketEvent.connect, SocketEvent.data "220 example ESMTP" 7] (by decide)]
  decide

/-- Counterexample for C7 as literally stated: on the admissible trace
connect-then-close the prober settles on the connection-closed-without-banner
path with zero `socket.destroy()` calls (the close handler does not destroy),
refuting "never zero times ... including the connection-closed-without-banner
path". -/
theorem testSingleHost_close_path_no_destroy :
    ValidTrace [SocketEvent.connect, SocketEvent.close] ∧
    (testSingleHost [SocketEvent.connect, SocketEvent.close]).settled
      = some (Settled.closedNoBanner
          { code := none, message := "Connection closed without receiving SMTP banner" }) ∧
    (testSingleHost [SocketEvent.connect, SocketEvent.close]).destroyCount = 0 := by
  decide

theorem validFrom_append (l1 : List SocketEvent) :
    ∀ (l2 : List SocketEvent) (st : ProbeState) (cs : Bool),
      validFrom st cs (l1 ++ l2) =
        (validFrom st cs l1 &&
          validFrom (l1.foldl handleEvent st) (cs || l1.any isCloseEvent) l2) := by
  induction l1 with
  | nil =>
    intro l2 st cs
    simp [validFrom]
  | cons ev rest ih =>
    intro l2 st cs
    simp only [List.cons_append, validFrom, List.foldl_cons, List.any_cons, List.append_eq]
    rw [ih l2 (handleEvent st ev) (cs || isCloseEvent ev)]
    simp [Bool.and_assoc, Bool.or_assoc]

/-- C3: on the first inbound data chunk delivered in an admissible trace, the
prober settles: it resolves with `success = true`, the elapsed response time
and the trimmed text as banner iff the trimmed text starts with the literal
prefix `"220"`, and otherwise rejects with the protocol error
`"Invalid SMTP banner received: <trimmed text>"`. -/
theorem testSingleHost_first_data_banner (pre : List SocketEvent) (chunk : String)
    (elapsed : Nat)
    (h : ValidTrace (pre ++ [SocketEvent.data chunk elapsed])) :
    (testSingleHost (pre ++ [SocketEvent.data chunk elapsed])).settled
      = some (if jsStartsWith (jsTrim chunk) "220" = true then
          Settled.resolved
            { success := true, responseTime := elapsed, banner := jsTrim chunk }
        else
          Settled.invalidBanner
            { code := none,
              message := "Invalid SMTP banner received: " ++ jsTrim chunk }) := by
  rw [ValidTrace, validFrom_append] at h
  simp only [Bool.and_eq_true] at h
  obtain ⟨hpre, hlast⟩ := h
  simp only [validFrom, Bool.and_eq_true, allowedEvent, Bool.not_eq_true',
    decide_eq_true_eq, Bool.false_or] at hlast
  obtain ⟨⟨⟨hconn, hdc⟩, hcs⟩, _⟩ := hlast
  have hinit : probeInvariant initProbeState false := by
    constructor
    · simp [initProbeState, settledViaDestroy]
    · intro e he
      simp [initProbeState] at he
  have hinv := probeInvariant_run pre initProbeState false hpre hinit
  rw [Bool.false_or] at hinv
  have hsn : (testSingleHost pre).settled = none :=
    settled_none_of_inv _ _ hinv hdc hcs
  have hfold : testSingleHost (pre ++ [SocketEvent.data chunk elapsed])
      = handleEvent (testSingleHost pre) (SocketEvent.data chunk elapsed) := by
    simp [testSingleHost, List.foldl_append]
  rw [hfold]
  simp only [handleEvent]
  split <;> simp_all [settleOnce, destroySocket]

/-- Witness for C3: after connecting, the chunk `"220 test"` resolves the
probe with that banner. -/
theorem testSingleHost_first_data_banner_witness :
    (testSingleHost ([SocketEvent.connect] ++ [SocketEvent.data "220 test" 3])).settled
      = some (Settled.resolved { success := true, responseTime := 3, banner := "220 test" }) := by
  rw [testSingleHost_first_data_banner [SocketEvent.connect] "220 test" 3 (by decide)]
  decide

theorem smtpBanner_stable (evs : List SocketEvent) :
    ∀ (st : ProbeState), evs.all (fun ev => !isDataEvent ev) = true →
      (evs.foldl handleEvent st).smtpBanner = st.smtpBanner := by
  induction evs with
  | nil =>
    intro st _
    rfl
  | cons ev rest ih =>
    intro st hall
    simp only [List.all_cons, Bool.and_eq_true] at hall
    obtain ⟨hev, hrest⟩ := hall
    rw [List.foldl_cons, ih _ hrest]
    cases ev with
    | connect => rfl
    | data c e => simp [isDataEvent] at hev
    | timeout =>
      simp only [handleEvent, settleOnce, destroySocket]
      cases st.settled <;> rfl
    | error err =>
      simp only [handleEvent, settleOnce, destroySocket]
      cases st.settled <;> rfl
    | close =>
      simp only [handleEvent]
      split
      · simp only [settleOnce]
        cases st.settled <;> rfl
      · rfl

/-- C8 (amended): if the socket emits a close event after the connection was
established, with no data ever received and the promise still pending (no
error or timeout already reported), the prober rejects with the explicit
"Connection closed without receiving SMTP banner" error — it does not remain
pending.  (The source guards this on its `connected` flag, so a close before
the TCP connection was established does not trigger it.) -/
theorem testSingleHost_close_without_banner (pre : List SocketEvent)
    (hpend : (testSingleHost pre).settled = none)
    (hconn : (testSingleHost pre).connected = true)
    (hnodata : pre.all (fun ev => !isDataEvent ev) = true) :
    (testSingleHost (pre ++ [SocketEvent.close])).settled
      = some (Settled.closedNoBanner
          { code := none, message := "Connection closed without receiving SMTP banner" }) := by
  have hb : (testSingleHost pre).smtpBanner = "" := by
    have hstable := smtpBanner_stable pre initProbeState hnodata
    simpa [testSingleHost, initProbeState] using hstable
  have hfold : testSingleHost (pre ++ [SocketEvent.close])
      = handleEvent (testSingleHost pre) SocketEvent.close := by
    simp [testSingleHost, List.foldl_append]
  rw [hfold]
  simp [handleEvent, hconn, hb, settleOnce, hpend]

/-- Witness for C8's amended theorem: connect followed by a silent peer close
settles the promise with the closed-without-banner rejection. -/
theorem testSingleHost_close_without_banner_witness :
    (testSingleHost ([SocketEvent.connect] ++ [SocketEvent.close])).settled
      = some (Settled.closedNoBanner
          { code := none, message := "Connection closed without receiving SMTP banner" }) :=
  testSingleHost_close_without_banner [SocketEvent.connect] (by decide) (by decide) (by decide)

/-- Counterexample for C8 as literally stated: a close delivered before the
TCP connection was established (an admissible trace, no data, nothing yet
reported) leaves the promise pending — the prober does not fail, because the
close handler requires the `connected` flag. -/
theorem testSingleHost_close_before_connect_pending :
    ValidTrace [SocketEvent.close] ∧
    (testSingleHost [SocketEvent.close]).connected = false ∧
    (testSingleHost [SocketEvent.close]).settled = none := by
  decide

/-- C10: the promise returned by `testSingleHost` settles at most once: for
every event trace, once a terminal event has settled it, delivering any
further events — in any order — leaves the settled outcome unchanged. -/
theorem testSingleHost_settles_at_most_once (events ext : List SocketEvent) (o : Settled)
    (h : (testSingleHost events).settled = some o) :
    (testSingleHost (events ++ ext)).settled = some o := by
  have hmono : ∀ (st : ProbeState) (ev : SocketEvent), st.settled = some o →
      (handleEvent st ev).settled = some o := by
    intro st ev hst
    cases ev with
    | connect => simpa using hst
    | data c e =>
      simp only [handleEvent]
      split <;> simp [settleOnce, destroySocket, hst]
    | timeout => simp [handleEvent, settleOnce, destroySocket, hst]
    | error err => simp [handleEvent, settleOnce, destroySocket, hst]
    | close =>
      simp only [handleEvent]
      split
      · simp [settleOnce, hst]
      · exact hst
  have hrun : ∀ (l : List SocketEvent) (st : ProbeState), st.settled = some o →
      (l.foldl handleEvent st).settled = some o := by
    intro l
    induction l with
    | nil => intro st hst; exact hst
    | cons ev rest ih =>
      intro st hst
      exact ih _ (hmono st ev hst)
  have hfold : testSingleHost (events ++ ext) = ext.foldl handleEvent (testSingleHost events) := by
    simp [testSingleHost, List.foldl_append]
  rw [hfold]
  exact hrun ext (testSingleHost events) h

/-- Witness for C10: a close event delivered after a timeout has already
settled the promise does not change the settled outcome. -/
theorem testSingleHost_settles_at_most_once_witness :
    (testSingleHost ([SocketEvent.timeout] ++ [SocketEvent.close])).settled
      = some (Settled.connTimeout { code := none, message := "Connection timeout" }) :=
  testSingleHost_settles_at_most_once [SocketEvent.timeout] [SocketEvent.close]
    (Settled.connTimeout { code := none, message := "Connection timeout" }) (by decide)
